import Mathlib

/-!
Shallow embedding of `src/pdf_mcp_server.py` (a PDF MCP server exposing
`read_pdf_text`, `get_pdf_info` and `list_pdfs_in_directory`), together with
theorems settling the specification claims about it.

The filesystem and the two PDF parsing libraries (pdfplumber, PyPDF2) are
external collaborators; they are modelled as an abstract `World` of (possibly
failing) primitives.  Python exceptions raised by a primitive are modelled as
`Except Exc`; the operations themselves are translated line by line from the
source into total Lean functions whose results mirror the Python dicts
(optional fields model dict keys that may be absent).
-/

deriving instance DecidableEq for Except

namespace PdfMcp

/-! String primitives.  The Lean core versions (`String.startsWith`,
`String.toLower`, …) are compiled with loops the kernel cannot unfold, so the
embedding uses equivalent definitions on the underlying character lists, which
evaluate by reduction. -/

/-- Python `s.lower()` (ASCII case folding, as used on file names here). -/
def pyLower (s : String) : String := String.mk (s.data.map Char.toLower)

/-- Python `s.endswith(t)`. -/
def pyEndsWith (s t : String) : Bool := t.data.isSuffixOf s.data

/-- Python `"sep".join(parts)`. -/
def pyJoin (sep : String) : List String → String
  | [] => ""
  | x :: xs => xs.foldl (fun acc y => acc ++ sep ++ y) x

/-- POSIX `os.path.isabs`: a path is absolute iff it starts with a slash. -/
def isabs (p : String) : Bool :=
  match p.data with
  | [] => false
  | c :: _ => c == '/'

/-- A table extracted from a page: rows of nullable cell strings, as returned
by the parsing library. -/
abbrev Table := List (List (Option String))

/-- One page of an opened PDF document as seen through pdfplumber:
`extractText` models `page.extract_text()` (`none` when no text is found) and
`extractTables` models `page.extract_tables()`, which may raise (the raised
message is carried in the `error` case). -/
structure Page where
  extractText : Option String
  extractTables : Except String (List Table)
deriving DecidableEq

/-- A document opened by `pdfplumber.open`. -/
structure PdfDoc where
  pages : List Page
deriving DecidableEq

/-- A Python exception: either a `PermissionError` or any other `Exception`,
each carrying its `str(e)` message. -/
inductive Exc where
  | permission (msg : String)
  | other (msg : String)
deriving DecidableEq

/-- What `PyPDF2.PdfReader` exposes: a page count and the document's info
dictionary (`reader.metadata`), which is `none` when the document has no
metadata dictionary; values are the raw string representations. -/
structure PdfReaderData where
  numPages : Nat
  metadata : Option (List (String × String))
deriving DecidableEq

/-- One triple yielded by `os.walk`: a root directory, its subdirectories and
its file names. -/
structure WalkEntry where
  root : String
  dirs : List String
  files : List String
deriving DecidableEq

/-- The external world: filesystem and PDF-library primitives consumed by the
three operations.  Fallible primitives return `Except Exc`, modelling the
exception they may raise. -/
structure World where
  /-- `os.path.exists` -/
  pathExists : String → Bool
  /-- `os.path.isdir` -/
  isDir : String → Bool
  /-- `pdfplumber.open` -/
  openPdf : String → Except Exc PdfDoc
  /-- `open(path, 'rb')` followed by `PyPDF2.PdfReader(file)` and the reads of
  `reader.pages` / `reader.metadata` -/
  readPdf : String → Except Exc PdfReaderData
  /-- `os.path.getsize` -/
  getsize : String → Except Exc Nat
  /-- `os.path.getmtime` (the timestamp is treated as an opaque value) -/
  getmtime : String → Except Exc Nat
  /-- `os.walk` (which itself swallows traversal errors by default) -/
  walk : String → List WalkEntry
  /-- `os.path.abspath` -/
  abspath : String → String
  /-- `os.path.relpath path start` -/
  relpath : String → String → String

/-! ## Result shapes

The Python functions return dicts; a key that may be absent is modelled as an
`Option` field defaulting to `none`. -/

/-- One element of the `pages` list of a `read_pdf_text` result. -/
structure PageInfo where
  page_number : Nat
  text : String
  tables : Option (List Table) := none
  table_extraction_error : Option String := none
deriving DecidableEq

/-- The dict returned by `read_pdf_text`. -/
structure TextResult where
  success : Bool
  error : Option String := none
  file_path : Option String := none
  total_pages : Option Nat := none
  pages : Option (List PageInfo) := none
  full_text : Option String := none
deriving DecidableEq

/-- The dict returned by `get_pdf_info`. -/
structure InfoResult where
  success : Bool
  error : Option String := none
  file_path : Option String := none
  page_count : Option Nat := none
  metadata : Option (List (String × String)) := none
  file_size : Option Nat := none
deriving DecidableEq

/-- One element of the `pdf_files` list of a `list_pdfs_in_directory` result. -/
structure PdfFileEntry where
  filename : String
  full_path : String
  relative_path : String
  directory : String
  size : Option Nat := none
  modified : Option Nat := none
  permission_error : Option String := none
  error : Option String := none
deriving DecidableEq

/-- The dict returned by `list_pdfs_in_directory`. -/
structure DirResult where
  success : Bool
  error : Option String := none
  search_directory : Option String := none
  pdf_count : Option Nat := none
  pdf_files : Option (List PdfFileEntry) := none
deriving DecidableEq

/-! ## read_pdf_text -/

/-- The default page used by `List.getD` when indexing `pdf.pages`; every
index produced by the selection logic is in range, so it is never reached. -/
def defaultPage : Page := { extractText := none, extractTables := Except.ok [] }

/-- `page.extract_text() or ""` for the page at 0-based index `page_idx`. -/
def pageText (pdf : PdfDoc) (page_idx : Nat) : String :=
  ((pdf.pages.getD page_idx defaultPage).extractText).getD ""

/-- The loop body of `read_pdf_text` building one `page_info` dict for the
page at 0-based index `page_idx`. -/
def buildPageInfo (pdf : PdfDoc) (extract_tables : Bool) (page_idx : Nat) :
    PageInfo :=
  let page := pdf.pages.getD page_idx defaultPage
  let base : PageInfo := { page_number := page_idx + 1, text := pageText pdf page_idx }
  if extract_tables then
    match page.extractTables with
    | Except.ok ts => { base with tables := some ts }
    | Except.error e =>
        { base with tables := some [], table_extraction_error := some e }
  else base

/-- Lines 68–71 of the source: the `pages_to_process` list of 0-based indices.
`none` means all pages ascending; otherwise requested numbers `p` with
`0 < p <= total` are kept in caller order and converted to 0-based. -/
def selectedIndices (total : Nat) (page_numbers : Option (List Int)) :
    List Nat :=
  match page_numbers with
  | none => List.range total
  | some ps =>
      (ps.filter (fun p => decide (0 < p ∧ p ≤ (total : Int)))).map
        (fun p => (p - 1).toNat)

/-- `read_pdf_text(file_path, page_numbers, extract_tables)`. -/
def read_pdf_text (w : World) (file_path : String)
    (page_numbers : Option (List Int)) (extract_tables : Bool) : TextResult :=
  if ! isabs file_path then
    { success := false,
      error := some ("File path must be absolute path, got: " ++ file_path) }
  else if ! w.pathExists file_path then
    { success := false, error := some ("File not found: " ++ file_path) }
  else if ! pyEndsWith (pyLower file_path) ".pdf" then
    { success := false, error := some "File must be a PDF" }
  else
    match w.openPdf file_path with
    | Except.error (Exc.permission m) =>
        { success := false,
          error := some ("Permission denied accessing file: " ++ file_path
                          ++ ". Error: " ++ m) }
    | Except.error (Exc.other m) =>
        { success := false, error := some ("Error reading PDF: " ++ m) }
    | Except.ok pdf =>
        let pages_to_process := selectedIndices pdf.pages.length page_numbers
        { success := true,
          file_path := some file_path,
          total_pages := some pdf.pages.length,
          pages := some (pages_to_process.map (buildPageInfo pdf extract_tables)),
          full_text :=
            some (pyJoin "\n\n" (pages_to_process.map (pageText pdf))) }

/-! ## get_pdf_info -/

/-- `metadata.get(key, "")`: association-list lookup with default `""`. -/
def lookupDefault (l : List (String × String)) (k : String) : String :=
  (l.lookup k).getD ""

/-- Lines 148–158 of the source: the `metadata` dict of a `get_pdf_info`
result.  It starts as `{}` and is replaced by the seven-key map only when
`pdf_reader.metadata` is truthy (present and nonempty). -/
def buildMetadata (md : Option (List (String × String))) :
    List (String × String) :=
  match md with
  | none => []
  | some l =>
      if l.isEmpty then []
      else
        [("title", lookupDefault l "/Title"),
         ("author", lookupDefault l "/Author"),
         ("subject", lookupDefault l "/Subject"),
         ("creator", lookupDefault l "/Creator"),
         ("producer", lookupDefault l "/Producer"),
         ("creation_date", lookupDefault l "/CreationDate"),
         ("modification_date", lookupDefault l "/ModDate")]

/-- `get_pdf_info(file_path)`. -/
def get_pdf_info (w : World) (file_path : String) : InfoResult :=
  if ! isabs file_path then
    { success := false,
      error := some ("File path must be absolute path, got: " ++ file_path) }
  else if ! w.pathExists file_path then
    { success := false, error := some ("File not found: " ++ file_path) }
  else
    match w.readPdf file_path with
    | Except.error (Exc.permission m) =>
        { success := false,
          error := some ("Permission denied accessing file: " ++ file_path
                          ++ ". Error: " ++ m) }
    | Except.error (Exc.other m) =>
        { success := false, error := some ("Error getting PDF info: " ++ m) }
    | Except.ok rd =>
        match w.getsize file_path with
        | Except.error (Exc.permission m) =>
            { success := false,
              error := some ("Permission denied accessing file: " ++ file_path
                              ++ ". Error: " ++ m) }
        | Except.error (Exc.other m) =>
            { success := false, error := some ("Error getting PDF info: " ++ m) }
        | Except.ok sz =>
            { success := true,
              file_path := some file_path,
              page_count := some rd.numPages,
              metadata := some (buildMetadata rd.metadata),
              file_size := some sz }

/-! ## list_pdfs_in_directory -/

/-- POSIX `os.path.join root file` for a file name. -/
def pjoin (root file : String) : String :=
  if pyEndsWith root "/" then root ++ file else root ++ "/" ++ file

/-- Lines 213–247 of the source: build the entry for one discovered `.pdf`
file, catching per-file stat exceptions. -/
def buildEntry (w : World) (directory_path root file : String) : PdfFileEntry :=
  let full_path := w.abspath (pjoin root file)
  let relative_path := w.relpath full_path directory_path
  let dir := w.abspath root
  match w.getsize full_path with
  | Except.ok file_size =>
      match w.getmtime full_path with
      | Except.ok mtime =>
          { filename := file, full_path := full_path,
            relative_path := relative_path, directory := dir,
            size := some file_size, modified := some mtime }
      | Except.error (Exc.permission m) =>
          { filename := file, full_path := full_path,
            relative_path := relative_path, directory := dir,
            permission_error := some m }
      | Except.error (Exc.other m) =>
          { filename := file, full_path := full_path,
            relative_path := relative_path, directory := dir,
            error := some m }
  | Except.error (Exc.permission m) =>
      { filename := file, full_path := full_path,
        relative_path := relative_path, directory := dir,
        permission_error := some m }
  | Except.error (Exc.other m) =>
      { filename := file, full_path := full_path,
        relative_path := relative_path, directory := dir,
        error := some m }

/-- `list_pdfs_in_directory(directory_path)`. -/
def list_pdfs_in_directory (w : World) (directory_path : String) : DirResult :=
  if ! isabs directory_path then
    { success := false,
      error := some ("Directory path must be absolute path, got: "
                      ++ directory_path) }
  else if ! w.pathExists directory_path then
    { success := false,
      error := some ("Directory not found: " ++ directory_path) }
  else if ! w.isDir directory_path then
    { success := false,
      error := some ("Path is not a directory: " ++ directory_path) }
  else
    let pdf_files :=
      (w.walk directory_path).flatMap (fun e =>
        (e.files.filter (fun f => pyEndsWith (pyLower f) ".pdf")).map
          (buildEntry w directory_path e.root))
    { success := true,
      search_directory := some directory_path,
      pdf_count := some pdf_files.length,
      pdf_files := some pdf_files }

/-! ## A concrete example world, used to instantiate the theorems -/

/-- A page whose extracted text is `t` and which has no tables. -/
def exPage (t : String) : Page :=
  { extractText := some t, extractTables := Except.ok [] }

/-- A five-page document. -/
def exDoc : PdfDoc :=
  { pages := [exPage "P1", exPage "P2", exPage "P3", exPage "P4", exPage "P5"] }

/-- Reader data for a document whose info dictionary holds only a title. -/
def exMeta : PdfReaderData := { numPages := 5, metadata := some [("/Title", "T")] }

/-- A small concrete world: one readable PDF, one text file, one directory tree
with mixed-case PDF names, one permission-denied PDF and one PDF without a
metadata dictionary. -/
def exWorld : World where
  pathExists := fun s =>
    s == "/doc.pdf" || s == "/doc.txt" || s == "/dir" || s == "/locked.pdf"
      || s == "/nometa.pdf"
  isDir := fun s => s == "/dir"
  openPdf := fun s =>
    if s == "/doc.pdf" then Except.ok exDoc
    else if s == "/locked.pdf" then Except.error (Exc.permission "EACCES")
    else Except.error (Exc.other "No /Root object")
  readPdf := fun s =>
    if s == "/doc.pdf" then Except.ok exMeta
    else if s == "/nometa.pdf" then
      Except.ok { numPages := 1, metadata := none }
    else if s == "/locked.pdf" then Except.error (Exc.permission "EACCES")
    else Except.error (Exc.other "invalid literal")
  getsize := fun s =>
    if s == "/dir/b.PDF" then Except.error (Exc.permission "stat denied")
    else Except.ok 1234
  getmtime := fun s =>
    if s == "/dir/sub/d.pdf" then Except.error (Exc.other "stale handle")
    else Except.ok 1700000000
  walk := fun s =>
    if s == "/dir" then
      [{ root := "/dir", dirs := ["sub"], files := ["a.pdf", "b.PDF", "c.txt"] },
       { root := "/dir/sub", dirs := [], files := ["d.pdf"] }]
    else []
  abspath := fun s => s
  relpath := fun full base => String.mk (full.data.drop (base.data.length + 1))

/-! ## Helper lemmas -/

theorem buildPageInfo_page_number (pdf : PdfDoc) (extract_tables : Bool)
    (i : Nat) : (buildPageInfo pdf extract_tables i).page_number = i + 1 := by
  cases het : extract_tables <;>
    simp only [buildPageInfo, het, Bool.false_eq_true, if_false, if_true]
  cases h : (pdf.pages.getD i defaultPage).extractTables <;> simp [h]

theorem buildPageInfo_text (pdf : PdfDoc) (extract_tables : Bool) (i : Nat) :
    (buildPageInfo pdf extract_tables i).text = pageText pdf i := by
  cases het : extract_tables <;>
    simp only [buildPageInfo, het, Bool.false_eq_true, if_false, if_true]
  cases h : (pdf.pages.getD i defaultPage).extractTables <;> simp [h]

/-- The success branch of `read_pdf_text`: once the three validation checks
pass and the open succeeds, the result is fully determined. -/
theorem read_pdf_text_ok (w : World) (file_path : String)
    (page_numbers : Option (List Int)) (extract_tables : Bool) (pdf : PdfDoc)
    (h1 : isabs file_path = true) (h2 : w.pathExists file_path = true)
    (h3 : pyEndsWith (pyLower file_path) ".pdf" = true)
    (h4 : w.openPdf file_path = Except.ok pdf) :
    read_pdf_text w file_path page_numbers extract_tables =
      { success := true,
        file_path := some file_path,
        total_pages := some pdf.pages.length,
        pages := some ((selectedIndices pdf.pages.length page_numbers).map
          (buildPageInfo pdf extract_tables)),
        full_text := some (pyJoin "\n\n"
          ((selectedIndices pdf.pages.length page_numbers).map (pageText pdf))) } := by
  simp [read_pdf_text, h1, h2, h3, h4]

/-- The success branch of `get_pdf_info`. -/
theorem get_pdf_info_ok (w : World) (file_path : String) (rd : PdfReaderData)
    (sz : Nat) (h1 : isabs file_path = true) (h2 : w.pathExists file_path = true)
    (h3 : w.readPdf file_path = Except.ok rd)
    (h4 : w.getsize file_path = Except.ok sz) :
    get_pdf_info w file_path =
      { success := true,
        file_path := some file_path,
        page_count := some rd.numPages,
        metadata := some (buildMetadata rd.metadata),
        file_size := some sz } := by
  simp [get_pdf_info, h1, h2, h3, h4]

/-- The success branch of `list_pdfs_in_directory`. -/
theorem list_pdfs_ok (w : World) (directory_path : String)
    (h1 : isabs directory_path = true)
    (h2 : w.pathExists directory_path = true)
    (h3 : w.isDir directory_path = true) :
    list_pdfs_in_directory w directory_path =
      { success := true,
        search_directory := some directory_path,
        pdf_count := some ((w.walk directory_path).flatMap (fun e =>
          (e.files.filter (fun f => pyEndsWith (pyLower f) ".pdf")).map
            (buildEntry w directory_path e.root))).length,
        pdf_files := some ((w.walk directory_path).flatMap (fun e =>
          (e.files.filter (fun f => pyEndsWith (pyLower f) ".pdf")).map
            (buildEntry w directory_path e.root))) } := by
  simp [list_pdfs_in_directory, h1, h2, h3]

/-! ## Claims -/

/-- C2: for every successful `read_pdf_text` call, if `page_numbers` is absent
the working page set is every page `0..total_pages-1` in ascending order (the
returned page numbers are `1..total_pages` ascending); if present, exactly the
requested numbers `p` with `0 < p ≤ total_pages` are kept, in the caller's
original order, out-of-range numbers silently dropped, and each kept number
yields exactly one `PageResult` whose `page_number` is the original 1-based
document page number. -/
theorem claim2_page_selection (w : World) (file_path : String)
    (page_numbers : Option (List Int)) (extract_tables : Bool) (pdf : PdfDoc)
    (h1 : isabs file_path = true) (h2 : w.pathExists file_path = true)
    (h3 : pyEndsWith (pyLower file_path) ".pdf" = true)
    (h4 : w.openPdf file_path = Except.ok pdf) :
    (read_pdf_text w file_path page_numbers extract_tables).success = true ∧
    (page_numbers = none →
      ((read_pdf_text w file_path page_numbers extract_tables).pages.getD []).map
          (fun pi => pi.page_number)
        = (List.range pdf.pages.length).map (fun i => i + 1)) ∧
    (∀ ps, page_numbers = some ps →
      ((read_pdf_text w file_path page_numbers extract_tables).pages.getD []).map
          (fun pi => pi.page_number)
        = (ps.filter
            (fun p => decide (0 < p ∧ p ≤ (pdf.pages.length : Int)))).map
            Int.toNat) := by
  rw [read_pdf_text_ok w file_path page_numbers extract_tables pdf h1 h2 h3 h4]
  refine ⟨rfl, ?_, ?_⟩
  · intro hn
    subst hn
    simp [selectedIndices, List.map_map, Function.comp, buildPageInfo_page_number]
  · intro ps hps
    subst hps
    simp only [selectedIndices, Option.getD_some, List.map_map]
    apply List.map_congr_left
    intro p hp
    have hmem := (List.mem_filter.mp hp).2
    have hrange := of_decide_eq_true hmem
    simp only [Function.comp_apply, buildPageInfo_page_number]
    omega

/-- C2 witness: on the five-page example document, `page_numbers = [3, 1]`
yields exactly the page numbers `[3, 1]` in caller order. -/
theorem claim2_witness :
    (read_pdf_text exWorld "/doc.pdf" (some [3, 1]) false).success = true ∧
    ((read_pdf_text exWorld "/doc.pdf" (some [3, 1]) false).pages.getD []).map
        (fun pi => pi.page_number) = [3, 1] := by
  have h := claim2_page_selection exWorld "/doc.pdf" (some [3, 1]) false exDoc
    (by decide) (by decide) (by decide) (by decide)
  refine ⟨h.1, ?_⟩
  rw [h.2.2 [3, 1] rfl]
  decide

/-- C3: for every successful `read_pdf_text` call, `full_text` is the join of
the processed pages' texts with a double newline, in the order the `pages`
list was built; and when the working page set is empty the call still returns
`success = true` with empty `pages` and empty `full_text`. -/
theorem claim3_full_text_join (w : World) (file_path : String)
    (page_numbers : Option (List Int)) (extract_tables : Bool) (pdf : PdfDoc)
    (h1 : isabs file_path = true) (h2 : w.pathExists file_path = true)
    (h3 : pyEndsWith (pyLower file_path) ".pdf" = true)
    (h4 : w.openPdf file_path = Except.ok pdf) :
    ((read_pdf_text w file_path page_numbers extract_tables).full_text =
      some (pyJoin "\n\n"
        (((read_pdf_text w file_path page_numbers extract_tables).pages.getD []).map
          (fun pi => pi.text)))) ∧
    (∀ ps, page_numbers = some ps →
      ps.filter (fun p => decide (0 < p ∧ p ≤ (pdf.pages.length : Int))) = [] →
      (read_pdf_text w file_path page_numbers extract_tables).success = true ∧
      (read_pdf_text w file_path page_numbers extract_tables).pages = some [] ∧
      (read_pdf_text w file_path page_numbers extract_tables).full_text
        = some "") := by
  rw [read_pdf_text_ok w file_path page_numbers extract_tables pdf h1 h2 h3 h4]
  refine ⟨?_, ?_⟩
  · simp only [Option.getD_some, List.map_map]
    have heq : ((fun pi => pi.text) ∘ buildPageInfo pdf extract_tables)
        = pageText pdf := by
      funext i
      exact buildPageInfo_text pdf extract_tables i
    rw [heq]
  · intro ps hps hempty
    subst hps
    simp only [selectedIndices, hempty, List.map_nil]
    exact ⟨trivial, trivial, rfl⟩

/-- C3 witness: `page_numbers = [0, 99]` on the five-page example document
returns `success = true`, empty `pages` and empty `full_text`; and on
`[3, 1]` the `full_text` is the double-newline join of the page texts. -/
theorem claim3_witness :
    ((read_pdf_text exWorld "/doc.pdf" (some [0, 99]) false).success = true ∧
     (read_pdf_text exWorld "/doc.pdf" (some [0, 99]) false).pages = some [] ∧
     (read_pdf_text exWorld "/doc.pdf" (some [0, 99]) false).full_text
       = some "") ∧
    (read_pdf_text exWorld "/doc.pdf" (some [3, 1]) false).full_text =
      some (pyJoin "\n\n"
        (((read_pdf_text exWorld "/doc.pdf" (some [3, 1]) false).pages.getD []).map
          (fun pi => pi.text))) := by
  have h := claim3_full_text_join exWorld "/doc.pdf" (some [0, 99]) false exDoc
    (by decide) (by decide) (by decide) (by decide)
  have h2 := claim3_full_text_join exWorld "/doc.pdf" (some [3, 1]) false exDoc
    (by decide) (by decide) (by decide) (by decide)
  exact ⟨h.2 [0, 99] rfl (by decide), h2.1⟩

/-- C5: `read_pdf_text` validates with short-circuit checks in the order
absolute, exists, `.pdf` suffix: every relative path fails with the
`NotAbsolutePath`-class message regardless of the filesystem state, and an
absolute existing path without the `.pdf` suffix fails with the
`NotAPdf`-class message. -/
theorem claim5_validation_order (w : World) (file_path : String)
    (page_numbers : Option (List Int)) (extract_tables : Bool) :
    (isabs file_path = false →
      read_pdf_text w file_path page_numbers extract_tables =
        { success := false,
          error := some ("File path must be absolute path, got: " ++ file_path) }) ∧
    (isabs file_path = true → w.pathExists file_path = true →
      pyEndsWith (pyLower file_path) ".pdf" = false →
      read_pdf_text w file_path page_numbers extract_tables =
        { success := false, error := some "File must be a PDF" }) := by
  constructor
  · intro h
    simp [read_pdf_text, h]
  · intro h1 h2 h3
    simp [read_pdf_text, h1, h2, h3]

/-- C5 witness: the relative path `doc.pdf` fails with the absolute-path
message (even though `/doc.pdf` exists in the example world), and the
existing absolute path `/doc.txt` fails with the PDF-suffix message. -/
theorem claim5_witness :
    read_pdf_text exWorld "doc.pdf" none false =
      { success := false,
        error := some "File path must be absolute path, got: doc.pdf" } ∧
    read_pdf_text exWorld "/doc.txt" none false =
      { success := false, error := some "File must be a PDF" } := by
  have h := claim5_validation_order exWorld "doc.pdf" none false
  have h2 := claim5_validation_order exWorld "/doc.txt" none false
  exact ⟨(h.1 (by decide)).trans (by decide),
         h2.2 (by decide) (by decide) (by decide)⟩

/-- C10: `read_pdf_text` is a deterministic function of its arguments and of
the filesystem/library state it consumes: two worlds agreeing on the
existence check and the open of the given path produce identical results, so
two calls with identical arguments against the same unmodified state yield
identical `full_text` and `pages`. -/
theorem claim10_deterministic (w1 w2 : World) (file_path : String)
    (page_numbers : Option (List Int)) (extract_tables : Bool)
    (hex : w1.pathExists file_path = w2.pathExists file_path)
    (hopen : w1.openPdf file_path = w2.openPdf file_path) :
    read_pdf_text w1 file_path page_numbers extract_tables =
      read_pdf_text w2 file_path page_numbers extract_tables := by
  unfold read_pdf_text
  rw [hex, hopen]

/-- C10 witness: two calls with identical arguments in the example world
yield the same result. -/
theorem claim10_witness :
    read_pdf_text exWorld "/doc.pdf" (some [3, 1]) false =
      read_pdf_text exWorld "/doc.pdf" (some [3, 1]) false :=
  claim10_deterministic exWorld exWorld "/doc.pdf" (some [3, 1]) false rfl rfl

/-- C1 counterexample: in the example world, `/nometa.pdf` is an existing,
absolute path that `get_pdf_info` opens successfully, but the document has no
metadata dictionary, and the returned `metadata` map is empty — the `title`
key (like all the others) is missing, contradicting the claim that all
recognized keys are present with empty-string values. -/
theorem claim1_counterexample :
    (get_pdf_info exWorld "/nometa.pdf").success = true ∧
    (get_pdf_info exWorld "/nometa.pdf").metadata = some [] ∧
    ((get_pdf_info exWorld "/nometa.pdf").metadata.getD []).lookup "title"
      = none := by
  decide

/-- C1 (amended): for every existing, absolute input path that `get_pdf_info`
successfully opens, when the document's info dictionary is present and
nonempty the returned metadata map contains exactly the recognized keys
(title, author, subject, creator, producer, creation_date,
modification_date) and any key absent in the info dictionary maps to the
empty string; when the document has no info dictionary (or an empty one) the
returned metadata map is empty. -/
theorem claim1_info_metadata (w : World) (file_path : String)
    (rd : PdfReaderData) (sz : Nat)
    (h1 : isabs file_path = true) (h2 : w.pathExists file_path = true)
    (h3 : w.readPdf file_path = Except.ok rd)
    (h4 : w.getsize file_path = Except.ok sz) :
    (get_pdf_info w file_path).success = true ∧
    (∀ l, rd.metadata = some l → l ≠ [] →
      (get_pdf_info w file_path).metadata =
        some [("title", (l.lookup "/Title").getD ""),
              ("author", (l.lookup "/Author").getD ""),
              ("subject", (l.lookup "/Subject").getD ""),
              ("creator", (l.lookup "/Creator").getD ""),
              ("producer", (l.lookup "/Producer").getD ""),
              ("creation_date", (l.lookup "/CreationDate").getD ""),
              ("modification_date", (l.lookup "/ModDate").getD "")]) ∧
    ((rd.metadata = none ∨ rd.metadata = some []) →
      (get_pdf_info w file_path).metadata = some []) := by
  rw [get_pdf_info_ok w file_path rd sz h1 h2 h3 h4]
  refine ⟨rfl, ?_, ?_⟩
  · intro l hl hne
    rw [hl]
    simp [buildMetadata, lookupDefault, List.isEmpty_iff, hne]
  · rintro (hmd | hmd) <;> rw [hmd] <;> rfl

/-- C1 witness: `/doc.pdf` has an info dictionary holding only a title, and
the returned metadata map has all seven keys, the six absent ones mapped to
the empty string. -/
theorem claim1_witness :
    (get_pdf_info exWorld "/doc.pdf").metadata =
      some [("title", "T"), ("author", ""), ("subject", ""), ("creator", ""),
            ("producer", ""), ("creation_date", ""),
            ("modification_date", "")] := by
  have h := claim1_info_metadata exWorld "/doc.pdf" exMeta 1234
    (by decide) (by decide) (by decide) (by decide)
  rw [h.2.1 [("/Title", "T")] rfl (by decide)]
  decide

/-- C4: no exception escapes the operations: every exception raised by the
open/parse/stat primitives after validation is caught and converted into the
`success = false` / `error` envelope, a `PermissionError` message carries the
offending input path and the underlying system message, and
`list_pdfs_in_directory` still returns its (successful) envelope whatever the
per-file stat primitives raise. -/
theorem claim4_exception_envelope (w : World) (fp dp : String)
    (page_numbers : Option (List Int)) (extract_tables : Bool) (m : String)
    (rd : PdfReaderData) :
    (isabs fp = true → w.pathExists fp = true →
      pyEndsWith (pyLower fp) ".pdf" = true →
      w.openPdf fp = Except.error (Exc.permission m) →
      read_pdf_text w fp page_numbers extract_tables =
        { success := false,
          error := some ("Permission denied accessing file: " ++ fp
                          ++ ". Error: " ++ m) }) ∧
    (isabs fp = true → w.pathExists fp = true →
      pyEndsWith (pyLower fp) ".pdf" = true →
      w.openPdf fp = Except.error (Exc.other m) →
      read_pdf_text w fp page_numbers extract_tables =
        { success := false, error := some ("Error reading PDF: " ++ m) }) ∧
    (isabs fp = true → w.pathExists fp = true →
      w.readPdf fp = Except.error (Exc.permission m) →
      get_pdf_info w fp =
        { success := false,
          error := some ("Permission denied accessing file: " ++ fp
                          ++ ". Error: " ++ m) }) ∧
    (isabs fp = true → w.pathExists fp = true →
      w.readPdf fp = Except.error (Exc.other m) →
      get_pdf_info w fp =
        { success := false,
          error := some ("Error getting PDF info: " ++ m) }) ∧
    (isabs fp = true → w.pathExists fp = true →
      w.readPdf fp = Except.ok rd →
      w.getsize fp = Except.error (Exc.permission m) →
      get_pdf_info w fp =
        { success := false,
          error := some ("Permission denied accessing file: " ++ fp
                          ++ ". Error: " ++ m) }) ∧
    (isabs fp = true → w.pathExists fp = true →
      w.readPdf fp = Except.ok rd →
      w.getsize fp = Except.error (Exc.other m) →
      get_pdf_info w fp =
        { success := false,
          error := some ("Error getting PDF info: " ++ m) }) ∧
    (isabs fp = true → w.pathExists fp = true →
      pyEndsWith (pyLower fp) ".pdf" = true →
      w.openPdf fp = Except.error (Exc.permission m) →
      ∃ a b, (read_pdf_text w fp page_numbers extract_tables).error
        = some (a ++ fp ++ b ++ m)) ∧
    (isabs dp = true → w.pathExists dp = true → w.isDir dp = true →
      (list_pdfs_in_directory w dp).success = true) := by
  refine ⟨?_, ?_, ?_, ?_, ?_, ?_, ?_, ?_⟩
  · intro h1 h2 h3 h4
    simp [read_pdf_text, h1, h2, h3, h4]
  · intro h1 h2 h3 h4
    simp [read_pdf_text, h1, h2, h3, h4]
  · intro h1 h2 h3
    simp [get_pdf_info, h1, h2, h3]
  · intro h1 h2 h3
    simp [get_pdf_info, h1, h2, h3]
  · intro h1 h2 h3 h4
    simp [get_pdf_info, h1, h2, h3, h4]
  · intro h1 h2 h3 h4
    simp [get_pdf_info, h1, h2, h3, h4]
  · intro h1 h2 h3 h4
    refine ⟨"Permission denied accessing file: ", ". Error: ", ?_⟩
    simp [read_pdf_text, h1, h2, h3, h4]
  · intro h1 h2 h3
    simp [list_pdfs_in_directory, h1, h2, h3]

/-- C4 witness: opening the permission-denied file `/locked.pdf` yields the
envelope whose message carries the path and the system message, and the
directory listing (whose world raises a per-file stat `PermissionError` on
`/dir/b.PDF`) still succeeds. -/
theorem claim4_witness :
    read_pdf_text exWorld "/locked.pdf" none false =
      { success := false,
        error := some
          "Permission denied accessing file: /locked.pdf. Error: EACCES" } ∧
    get_pdf_info exWorld "/locked.pdf" =
      { success := false,
        error := some
          "Permission denied accessing file: /locked.pdf. Error: EACCES" } ∧
    (list_pdfs_in_directory exWorld "/dir").success = true := by
  have h := claim4_exception_envelope exWorld "/locked.pdf" "/dir" none false
    "EACCES" exMeta
  refine ⟨?_, ?_, h.2.2.2.2.2.2.2 (by decide) (by decide) (by decide)⟩
  · exact (h.1 (by decide) (by decide) (by decide) (by decide)).trans (by decide)
  · exact (h.2.2.1 (by decide) (by decide) (by decide)).trans (by decide)

/-- C7: `get_pdf_info` does not check the `.pdf` suffix: for every absolute,
existing path validation passes with only the absoluteness and existence
checks, so a rejection by the parsing library surfaces as the generic
`Error getting PDF info:` parse error (which is not the `NotAPdf` validation
message), and a path the library accepts succeeds whatever its suffix. -/
theorem claim7_info_no_suffix_check (w : World) (fp m : String)
    (rd : PdfReaderData) (sz : Nat)
    (h1 : isabs fp = true) (h2 : w.pathExists fp = true) :
    (w.readPdf fp = Except.error (Exc.other m) →
      get_pdf_info w fp =
        { success := false,
          error := some ("Error getting PDF info: " ++ m) } ∧
      ("Error getting PDF info: " ++ m) ≠ "File must be a PDF") ∧
    (w.readPdf fp = Except.ok rd → w.getsize fp = Except.ok sz →
      (get_pdf_info w fp).success = true) := by
  constructor
  · intro h3
    constructor
    · simp [get_pdf_info, h1, h2, h3]
    · intro heq
      have hl := congrArg String.length heq
      rw [String.length_append] at hl
      have e1 : ("Error getting PDF info: ").length = 24 := rfl
      have e2 : ("File must be a PDF").length = 18 := rfl
      omega
  · intro h3 h4
    simp [get_pdf_info, h1, h2, h3, h4]

/-- C7 witness: the absolute, existing, non-`.pdf` path `/doc.txt` is
attempted by `get_pdf_info` and the library rejection surfaces as the
generic parse error, not the `NotAPdf` validation error. -/
theorem claim7_witness :
    get_pdf_info exWorld "/doc.txt" =
      { success := false,
        error := some "Error getting PDF info: invalid literal" } ∧
    (get_pdf_info exWorld "/doc.txt").error ≠ some "File must be a PDF" := by
  have h := claim7_info_no_suffix_check exWorld "/doc.txt" "invalid literal"
    exMeta 1234 (by decide) (by decide)
  have h2 := h.1 (by decide)
  refine ⟨h2.1.trans (by decide), ?_⟩
  rw [h2.1]
  intro hc
  exact h2.2 (Option.some_injective _ hc)

/-- C6: during the recursive walk, every file whose name ends in `.pdf`
case-insensitively produces exactly one `PdfFileEntry` (so `pdf_count` counts
both `.pdf` and `.PDF` names and excludes others); a per-file stat permission
error still emits the entry with `permission_error` set instead of
`size`/`modified`, any other stat failure emits it with `error` set, and no
per-file stat failure drops the file or aborts the walk. -/
theorem claim6_directory_listing (w : World) (dp : String)
    (h1 : isabs dp = true) (h2 : w.pathExists dp = true)
    (h3 : w.isDir dp = true) :
    (list_pdfs_in_directory w dp).success = true ∧
    (list_pdfs_in_directory w dp).pdf_files =
      some ((w.walk dp).flatMap (fun e =>
        (e.files.filter (fun f => pyEndsWith (pyLower f) ".pdf")).map
          (buildEntry w dp e.root))) ∧
    (list_pdfs_in_directory w dp).pdf_count =
      some ((w.walk dp).flatMap (fun e =>
        (e.files.filter (fun f => pyEndsWith (pyLower f) ".pdf")).map
          (buildEntry w dp e.root))).length ∧
    (∀ root file m,
      w.getsize (w.abspath (pjoin root file)) = Except.error (Exc.permission m) →
      buildEntry w dp root file =
        { filename := file, full_path := w.abspath (pjoin root file),
          relative_path := w.relpath (w.abspath (pjoin root file)) dp,
          directory := w.abspath root, permission_error := some m }) ∧
    (∀ root file m,
      w.getsize (w.abspath (pjoin root file)) = Except.error (Exc.other m) →
      buildEntry w dp root file =
        { filename := file, full_path := w.abspath (pjoin root file),
          relative_path := w.relpath (w.abspath (pjoin root file)) dp,
          directory := w.abspath root, error := some m }) ∧
    (∀ root file sz m,
      w.getsize (w.abspath (pjoin root file)) = Except.ok sz →
      w.getmtime (w.abspath (pjoin root file)) = Except.error (Exc.permission m) →
      buildEntry w dp root file =
        { filename := file, full_path := w.abspath (pjoin root file),
          relative_path := w.relpath (w.abspath (pjoin root file)) dp,
          directory := w.abspath root, permission_error := some m }) ∧
    (∀ root file sz m,
      w.getsize (w.abspath (pjoin root file)) = Except.ok sz →
      w.getmtime (w.abspath (pjoin root file)) = Except.error (Exc.other m) →
      buildEntry w dp root file =
        { filename := file, full_path := w.abspath (pjoin root file),
          relative_path := w.relpath (w.abspath (pjoin root file)) dp,
          directory := w.abspath root, error := some m }) ∧
    (∀ root file sz mt,
      w.getsize (w.abspath (pjoin root file)) = Except.ok sz →
      w.getmtime (w.abspath (pjoin root file)) = Except.ok mt →
      buildEntry w dp root file =
        { filename := file, full_path := w.abspath (pjoin root file),
          relative_path := w.relpath (w.abspath (pjoin root file)) dp,
          directory := w.abspath root, size := some sz,
          modified := some mt }) := by
  rw [list_pdfs_ok w dp h1 h2 h3]
  refine ⟨rfl, rfl, rfl, ?_, ?_, ?_, ?_, ?_⟩
  · intro root file m hm
    simp [buildEntry, hm]
  · intro root file m hm
    simp [buildEntry, hm]
  · intro root file sz m hsz hm
    simp [buildEntry, hsz, hm]
  · intro root file sz m hsz hm
    simp [buildEntry, hsz, hm]
  · intro root file sz mt hsz hm
    simp [buildEntry, hsz, hm]

/-- C6 witness: in the example world `/dir` holds `a.pdf`, `b.PDF`, `c.txt`
and `sub/d.pdf`; the listing emits three entries (counting `.pdf` and `.PDF`,
excluding `c.txt`), the stat-permission-denied `b.PDF` keeps its entry with
`permission_error` set and no `size`/`modified`, and the mtime-failing
`sub/d.pdf` keeps its entry with `error` set. -/
theorem claim6_witness :
    (list_pdfs_in_directory exWorld "/dir").success = true ∧
    (list_pdfs_in_directory exWorld "/dir").pdf_count = some 3 ∧
    ((list_pdfs_in_directory exWorld "/dir").pdf_files.getD []).map
      (fun e => e.filename) = ["a.pdf", "b.PDF", "d.pdf"] ∧
    buildEntry exWorld "/dir" "/dir" "b.PDF" =
      { filename := "b.PDF", full_path := "/dir/b.PDF",
        relative_path := "b.PDF", directory := "/dir",
        permission_error := some "stat denied" } ∧
    buildEntry exWorld "/dir" "/dir/sub" "d.pdf" =
      { filename := "d.pdf", full_path := "/dir/sub/d.pdf",
        relative_path := "sub/d.pdf", directory := "/dir/sub",
        error := some "stale handle" } := by
  have h := claim6_directory_listing exWorld "/dir" (by decide) (by decide)
    (by decide)
  refine ⟨h.1, ?_, ?_, ?_, ?_⟩
  · rw [h.2.2.1]
    decide
  · rw [h.2.1]
    decide
  · exact (h.2.2.2.1 "/dir" "b.PDF" "stat denied" (by decide)).trans (by decide)
  · exact (h.2.2.2.2.2.2.1 "/dir/sub" "d.pdf" 1234 "stale handle" (by decide)
      (by decide)).trans (by decide)

/-- Envelope shape of every `read_pdf_text` result. -/
theorem read_pdf_text_envelope (w : World) (fp : String)
    (page_numbers : Option (List Int)) (extract_tables : Bool) :
    ((read_pdf_text w fp page_numbers extract_tables).success = false →
      (read_pdf_text w fp page_numbers extract_tables).error.isSome = true ∧
      (read_pdf_text w fp page_numbers extract_tables).file_path = none ∧
      (read_pdf_text w fp page_numbers extract_tables).total_pages = none ∧
      (read_pdf_text w fp page_numbers extract_tables).pages = none ∧
      (read_pdf_text w fp page_numbers extract_tables).full_text = none) ∧
    ((read_pdf_text w fp page_numbers extract_tables).success = true →
      (read_pdf_text w fp page_numbers extract_tables).error = none) := by
  unfold read_pdf_text
  cases h1 : isabs fp
  · simp
  cases h2 : w.pathExists fp
  · simp
  cases h3 : pyEndsWith (pyLower fp) ".pdf"
  · simp
  rcases h4 : w.openPdf fp with e | pdf
  · cases e <;> simp
  · simp

/-- Envelope shape of every `get_pdf_info` result. -/
theorem get_pdf_info_envelope (w : World) (fp : String) :
    ((get_pdf_info w fp).success = false →
      (get_pdf_info w fp).error.isSome = true ∧
      (get_pdf_info w fp).file_path = none ∧
      (get_pdf_info w fp).page_count = none ∧
      (get_pdf_info w fp).metadata = none ∧
      (get_pdf_info w fp).file_size = none) ∧
    ((get_pdf_info w fp).success = true → (get_pdf_info w fp).error = none) := by
  unfold get_pdf_info
  cases h1 : isabs fp
  · simp
  cases h2 : w.pathExists fp
  · simp
  rcases h3 : w.readPdf fp with e | rd
  · cases e <;> simp
  rcases h4 : w.getsize fp with e | sz
  · cases e <;> simp
  · simp

/-- Envelope shape of every `list_pdfs_in_directory` result. -/
theorem list_pdfs_envelope (w : World) (dp : String) :
    ((list_pdfs_in_directory w dp).success = false →
      (list_pdfs_in_directory w dp).error.isSome = true ∧
      (list_pdfs_in_directory w dp).search_directory = none ∧
      (list_pdfs_in_directory w dp).pdf_count = none ∧
      (list_pdfs_in_directory w dp).pdf_files = none) ∧
    ((list_pdfs_in_directory w dp).success = true →
      (list_pdfs_in_directory w dp).error = none) := by
  unfold list_pdfs_in_directory
  cases h1 : isabs dp
  · simp
  cases h2 : w.pathExists dp
  · simp
  cases h3 : w.isDir dp
  · simp
  · simp

/-- C8: for every result of any of the three operations, `success = false`
implies every payload field is absent and `error` is present, and
`success = true` implies `error` is absent. -/
theorem claim8_envelope (w : World) (fp dp : String)
    (page_numbers : Option (List Int)) (extract_tables : Bool) :
    (((read_pdf_text w fp page_numbers extract_tables).success = false →
      (read_pdf_text w fp page_numbers extract_tables).error.isSome = true ∧
      (read_pdf_text w fp page_numbers extract_tables).file_path = none ∧
      (read_pdf_text w fp page_numbers extract_tables).total_pages = none ∧
      (read_pdf_text w fp page_numbers extract_tables).pages = none ∧
      (read_pdf_text w fp page_numbers extract_tables).full_text = none) ∧
     ((read_pdf_text w fp page_numbers extract_tables).success = true →
      (read_pdf_text w fp page_numbers extract_tables).error = none)) ∧
    (((get_pdf_info w fp).success = false →
      (get_pdf_info w fp).error.isSome = true ∧
      (get_pdf_info w fp).file_path = none ∧
      (get_pdf_info w fp).page_count = none ∧
      (get_pdf_info w fp).metadata = none ∧
      (get_pdf_info w fp).file_size = none) ∧
     ((get_pdf_info w fp).success = true → (get_pdf_info w fp).error = none)) ∧
    (((list_pdfs_in_directory w dp).success = false →
      (list_pdfs_in_directory w dp).error.isSome = true ∧
      (list_pdfs_in_directory w dp).search_directory = none ∧
      (list_pdfs_in_directory w dp).pdf_count = none ∧
      (list_pdfs_in_directory w dp).pdf_files = none) ∧
     ((list_pdfs_in_directory w dp).success = true →
      (list_pdfs_in_directory w dp).error = none)) :=
  ⟨read_pdf_text_envelope w fp page_numbers extract_tables,
   get_pdf_info_envelope w fp, list_pdfs_envelope w dp⟩

/-- C8 witness: a failing call carries only `error` (payload absent), a
successful call carries no `error`. -/
theorem claim8_witness :
    (read_pdf_text exWorld "doc.pdf" none false).error.isSome = true ∧
    (read_pdf_text exWorld "doc.pdf" none false).file_path = none ∧
    (read_pdf_text exWorld "/doc.pdf" none false).error = none ∧
    (get_pdf_info exWorld "/doc.pdf").error = none ∧
    (list_pdfs_in_directory exWorld "/dir").error = none := by
  have h := claim8_envelope exWorld "doc.pdf" "/dir" none false
  have h2 := claim8_envelope exWorld "/doc.pdf" "/dir" none false
  have hfail := h.1.1 (by decide)
  exact ⟨hfail.1, hfail.2.1, h2.1.2 (by decide), h2.2.1.2 (by decide),
    h2.2.2.2 (by decide)⟩

/-- C9: if `page_numbers` contains the same valid page number more than once,
the result has one `PageResult` per occurrence (duplicates not de-duplicated)
in caller order, and that page's text appears once per occurrence in
`full_text`: the `pages` list is the occurrence-by-occurrence image of the
kept numbers, the number of `PageResult`s carrying a valid page number `p`
equals the number of occurrences of `p` in the request, and `full_text` joins
the text of every occurrence. -/
theorem claim9_duplicate_pages (w : World) (file_path : String)
    (extract_tables : Bool) (pdf : PdfDoc) (ps : List Int)
    (h1 : isabs file_path = true) (h2 : w.pathExists file_path = true)
    (h3 : pyEndsWith (pyLower file_path) ".pdf" = true)
    (h4 : w.openPdf file_path = Except.ok pdf) :
    (read_pdf_text w file_path (some ps) extract_tables).pages =
      some ((ps.filter
          (fun p => decide (0 < p ∧ p ≤ (pdf.pages.length : Int)))).map
        (fun p => buildPageInfo pdf extract_tables ((p - 1).toNat))) ∧
    (∀ p : Int, 0 < p → p ≤ (pdf.pages.length : Int) →
      ((read_pdf_text w file_path (some ps) extract_tables).pages.getD []).countP
          (fun pi => pi.page_number == p.toNat)
        = ps.count p) ∧
    (read_pdf_text w file_path (some ps) extract_tables).full_text =
      some (pyJoin "\n\n"
        ((ps.filter
            (fun p => decide (0 < p ∧ p ≤ (pdf.pages.length : Int)))).map
          (fun p => pageText pdf ((p - 1).toNat)))) := by
  rw [read_pdf_text_ok w file_path (some ps) extract_tables pdf h1 h2 h3 h4]
  refine ⟨?_, ?_, ?_⟩
  · simp only [selectedIndices, List.map_map]
    rfl
  · intro p hp hpn
    simp only [selectedIndices, Option.getD_some, List.countP_map,
      List.countP_filter]
    rw [List.count_eq_countP]
    apply List.countP_congr
    intro q hq
    simp only [Function.comp_apply, buildPageInfo_page_number,
      Bool.and_eq_true, beq_iff_eq, decide_eq_true_eq]
    constructor
    · rintro ⟨hnum, hq0, hqn⟩
      omega
    · rintro rfl
      exact ⟨by omega, hp, hpn⟩
  · simp only [selectedIndices, List.map_map]
    rfl

/-- C9 witness: `page_numbers = [2, 2, 3]` on the five-page example document
yields two `PageResult`s for page 2 and one for page 3, in caller order, and
page 2's text appears twice in `full_text`. -/
theorem claim9_witness :
    (read_pdf_text exWorld "/doc.pdf" (some [2, 2, 3]) false).pages =
      some [{ page_number := 2, text := "P2" },
            { page_number := 2, text := "P2" },
            { page_number := 3, text := "P3" }] ∧
    ((read_pdf_text exWorld "/doc.pdf" (some [2, 2, 3]) false).pages.getD []).countP
        (fun pi => pi.page_number == (2 : Int).toNat) = 2 ∧
    (read_pdf_text exWorld "/doc.pdf" (some [2, 2, 3]) false).full_text =
      some "P2\n\nP2\n\nP3" := by
  have h := claim9_duplicate_pages exWorld "/doc.pdf" false exDoc [2, 2, 3]
    (by decide) (by decide) (by decide) (by decide)
  refine ⟨?_, ?_, ?_⟩
  · rw [h.1]
    decide
  · rw [h.2.1 2 (by decide) (by decide)]
    decide
  · rw [h.2.2]
    decide

end PdfMcp
